import Mathlib

/-!
Verification of the network-client construction layer (`uv-client/src/base_client.rs`)
and the pinned-distribution serialization (`uv-resolver/src/resolution/mod.rs`).

The Rust code is shallowly embedded: machine integers become `Nat` (with the u64
bound made explicit where parsing can overflow), environment access and the
filesystem become explicit function-valued parameters (`BuildEnv`), and warnings
emitted through the deduplicated warning sink are collected in a list.
-/

/-- Connectivity mode: `Online` or `Offline` (crate `Connectivity` enum,
referenced exhaustively by `BaseClientBuilder::build`). -/
inductive Connectivity where
  | online
  | offline
deriving DecidableEq, Repr

/-- Modelled from the spec: the credential-lookup policy of the authentication
transform (`uv_configuration::KeyringProviderType`, not included in the sources):
disabled, backend-based, or interactive. -/
inductive KeyringProviderType where
  | disabled
  | backendBased
  | interactive
deriving DecidableEq, Repr

/-- One request/response transform layer held by a `MiddlewareStack` or installed
by `build()`. `arbitrary` stands for an opaque `Arc<dyn Middleware>` passed to
`MiddlewareStack::with`; `retryExponentialBackoff n` is the
`RetryTransientMiddleware` built from `ExponentialBackoff` with max retries `n`;
`auth` is the `AuthMiddleware`; `offline` is the crate `OfflineMiddleware`. -/
inductive Middleware where
  | arbitrary (id : Nat)
  | retryExponentialBackoff (maxRetries : Nat)
  | auth (keyring : KeyringProviderType)
  | offline
deriving DecidableEq, Repr

/-- `MiddlewareStack(Vec<Arc<dyn Middleware>>)`: an ordered, appendable sequence
of transforms, insertion order first. -/
structure MiddlewareStack where
  transforms : List Middleware
deriving DecidableEq, Repr

/-- `MiddlewareStack::with`: append an arbitrary middleware layer.
(Named `withMiddleware` because `with` is a Lean keyword.) -/
def MiddlewareStack.withMiddleware (self : MiddlewareStack) (m : Middleware) : MiddlewareStack :=
  ⟨self.transforms ++ [m]⟩

/-- `MiddlewareStack::with_retries`: append an exponential-backoff retry layer
when `retries > 0`, otherwise leave the stack unchanged. -/
def MiddlewareStack.with_retries (self : MiddlewareStack) (retries : Nat) : MiddlewareStack :=
  if retries > 0 then
    ⟨self.transforms ++ [Middleware.retryExponentialBackoff retries]⟩
  else
    self

/-- `MiddlewareStack::with_auth`: append an `AuthMiddleware` layer with the given
keyring provider. -/
def MiddlewareStack.with_auth (self : MiddlewareStack) (keyring : KeyringProviderType) : MiddlewareStack :=
  ⟨self.transforms ++ [Middleware.auth keyring]⟩

/-- Opaque marker-environment fingerprint handle (`pep508_rs::MarkerEnvironment`,
used only as an input to user-agent serialization). -/
structure MarkerEnvironment where
  token : Nat
deriving DecidableEq, Repr

/-- Opaque platform fingerprint handle (`platform_tags::Platform`). -/
structure Platform where
  token : Nat
deriving DecidableEq, Repr

/-- Modelled from the spec: `LineHaul::new(markers, platform)`
(crate `linehaul` module, not included in the sources) packages the anonymized
marker/platform descriptor that is serialized into the user agent. -/
structure LineHaul where
  markers : MarkerEnvironment
  platform : Option Platform
deriving DecidableEq, Repr

/-- The configuration recorded on a `reqwest::Client` by the builder calls that
`build()` performs: user agent, idle-pool cap, read timeout (seconds), and the
three TLS trust-store toggles. A pre-built client supplied by the caller is an
arbitrary value of this type. -/
structure Client where
  user_agent : Option String
  pool_max_idle_per_host : Option Nat
  read_timeout : Option Nat
  tls_built_in_root_certs : Bool
  tls_built_in_native_certs : Bool
  tls_built_in_webpki_certs : Bool
deriving DecidableEq, Repr

/-- `reqwest::ClientBuilder::new()` defaults: no user agent, no pool cap, no read
timeout, built-in root certs enabled, native and webpki stores not separately
enabled. -/
def ClientBuilder.new : Client :=
  { user_agent := none
    pool_max_idle_per_host := none
    read_timeout := none
    tls_built_in_root_certs := true
    tls_built_in_native_certs := false
    tls_built_in_webpki_certs := false }

/-- `reqwest_middleware::ClientWithMiddleware`: a transport plus the middleware
layers wrapped around it, outermost (first-added) first. -/
structure ClientWithMiddleware where
  client : Client
  middlewares : List Middleware
deriving DecidableEq, Repr

/-- `BaseClientBuilder`: native-TLS flag, connectivity, optional pre-built
transport, optional fingerprint sources, middleware stack. -/
structure BaseClientBuilder where
  native_tls : Bool
  connectivity : Connectivity
  client : Option Client
  markers : Option MarkerEnvironment
  platform : Option Platform
  middleware_stack : MiddlewareStack
deriving DecidableEq, Repr

/-- `BaseClientBuilder::default()`: native-TLS disabled, connectivity Online, no
preset transport, no fingerprints, empty middleware stack. -/
def BaseClientBuilder.default : BaseClientBuilder :=
  { native_tls := false
    connectivity := Connectivity.online
    client := none
    markers := none
    platform := none
    middleware_stack := ⟨[]⟩ }

/-- `BaseClient`: the composed transport, the connectivity mode and the resolved
timeout in seconds. The field projections are the read-only accessors
`client()`, `connectivity()` and `timeout()`. -/
structure BaseClient where
  client : ClientWithMiddleware
  connectivity : Connectivity
  timeout : Nat
deriving DecidableEq, Repr

/-- A warning emitted through `warn_user_once!` during `build()`. -/
inductive Warning where
  | invalidTimeoutValue (value : String)
  | invalidSSLCertFile (path : String)
deriving DecidableEq, Repr

/-- The process environment that `build()` consults: `env::var` lookups,
`Path::exists` probes, the product version string `uv_version::version()`, and
the result of `serde_json::to_string` on a `LineHaul` value (`none` models a
serialization failure). -/
structure BuildEnv where
  var : String → Option String
  fileExists : String → Bool
  version : String
  linehaulJson : LineHaul → Option String

/-- Rust `str::starts_with`: prefix test, written over the character list so
that it reduces inside the kernel. -/
def strStartsWith (s p : String) : Bool :=
  p.data.isPrefixOf s.data

/-- Rust `str::strip_prefix`: the remainder after the given literal, when the
string starts with it. -/
def stripPrefixStr (s p : String) : Option String :=
  if strStartsWith s p then some ⟨s.data.drop p.data.length⟩ else none

/-- Rust `str::parse::<u64>()`: an optional leading `+`, then one or more ASCII
digits, with the value bounded by `2 ^ 64`; anything else fails. -/
def parseU64 (s : String) : Option Nat :=
  let digits :=
    match s.data with
    | '+' :: rest => rest
    | l => l
  if digits.length > 0 && digits.all Char.isDigit then
    let n := digits.foldl (fun acc c => acc * 10 + (c.toNat - 48)) 0
    if n < 2 ^ 64 then some n else none
  else
    none

/-- The `default_timeout` of `build()`: 30 seconds. -/
def default_timeout : Nat := 30

/-- The timeout-resolution chain of `build()` (base_client.rs lines 141-153):
`UV_HTTP_TIMEOUT`, or else `UV_REQUEST_TIMEOUT`, or else `HTTP_TIMEOUT`; the
first set value is parsed as `u64` seconds, a parse failure warns once and
yields the default, and when none is set the default is used. Returns the
resolved timeout and the emitted warnings. -/
def resolveTimeout (var : String → Option String) : Nat × List Warning :=
  match (var "UV_HTTP_TIMEOUT").orElse (fun _ =>
      (var "UV_REQUEST_TIMEOUT").orElse (fun _ => var "HTTP_TIMEOUT")) with
  | none => (default_timeout, [])
  | some value =>
    match parseU64 value with
    | some n => (n, [])
    | none => (default_timeout, [Warning.invalidTimeoutValue value])

/-- The user-agent construction of `build()` (base_client.rs lines 128-137):
`"uv/<version>"`, with the serialized `LineHaul` fragment appended after a space
when markers are configured and serialization succeeds. -/
def userAgentString (self : BaseClientBuilder) (env : BuildEnv) : String :=
  "uv/" ++ env.version ++
    (Option.elim self.markers "" (fun markers =>
      Option.elim (env.linehaulJson ⟨markers, self.platform⟩) "" (fun output =>
        " " ++ output)))

/-- The `SSL_CERT_FILE` probe of `build()` (base_client.rs lines 158-168): the
variable is set and names an existing file, else `false`; a set value naming a
missing file warns once. -/
def sslCertFileCheck (env : BuildEnv) : Bool × List Warning :=
  match env.var "SSL_CERT_FILE" with
  | none => (false, [])
  | some path =>
    if env.fileExists path then (true, [])
    else (false, [Warning.invalidSSLCertFile path])

/-- The internal transport construction of `build()` (base_client.rs lines
157-184), run only when no pre-built client is present: probe `SSL_CERT_FILE`,
set the user agent, cap the idle pool at 20, set the read timeout, disable the
built-in root certs, then trust the native store when native-TLS was requested
or the probe succeeded and the webpki store otherwise. -/
def buildClient (self : BaseClientBuilder) (env : BuildEnv) (user_agent : String)
    (timeout : Nat) : Client × List Warning :=
  let probe := sslCertFileCheck env
  let ssl_cert_file_exists := probe.1
  let client_core :=
    { ClientBuilder.new with
        user_agent := some user_agent
        pool_max_idle_per_host := some 20
        read_timeout := some timeout
        tls_built_in_root_certs := false }
  let client :=
    if self.native_tls || ssl_cert_file_exists then
      { client_core with tls_built_in_native_certs := true }
    else
      { client_core with tls_built_in_webpki_certs := true }
  (client, probe.2)

/-- `BaseClientBuilder::build` (base_client.rs lines 127-206): build the user
agent, resolve the timeout, reuse the pre-built transport or construct one, then
wrap it with the configured middleware when Online and with exactly the offline
middleware when Offline. Returns the `BaseClient` and the warnings emitted. -/
def BaseClientBuilder.build (self : BaseClientBuilder) (env : BuildEnv) :
    BaseClient × List Warning :=
  let user_agent_string := userAgentString self env
  let resolved := resolveTimeout env.var
  let timeout := resolved.1
  let acquired :=
    match self.client with
    | some c => (c, ([] : List Warning))
    | none => buildClient self env user_agent_string timeout
  let client :=
    match self.connectivity with
    | Connectivity.online =>
      { client := acquired.1, middlewares := self.middleware_stack.transforms }
    | Connectivity.offline =>
      { client := acquired.1, middlewares := [Middleware.offline] }
  ({ client := client, connectivity := self.connectivity, timeout := timeout },
    resolved.2 ++ acquired.2)

/-- The outcome of issuing one request through the composed transport. -/
inductive RequestOutcome where
  | offlineError
  | transportResponse
deriving DecidableEq, Repr

/-- Modelled from the spec: executing one request through the middleware chain
(`OfflineMiddleware` and the request path of `reqwest_middleware` are not
included in the sources). Layers run outermost (first-added) first; the offline
middleware fails the request with the distinct offline outcome before any
socket, DNS or TLS operation; every other layer delegates to the rest of the
chain; the bare transport performs network I/O. Returns the outcome and whether
any network I/O was attempted. -/
def executeRequest : List Middleware → RequestOutcome × Bool
  | [] => (RequestOutcome.transportResponse, true)
  | Middleware.offline :: _ => (RequestOutcome.offlineError, false)
  | _ :: rest => executeRequest rest

/-- The version-or-URL reference of a resolved distribution
(`distribution_types::VersionOrUrlRef`), carrying its verbatim text. -/
inductive VersionOrUrlRef where
  | version (text : String)
  | url (text : String)
deriving DecidableEq, Repr

/-- The verbatim text of a version-or-URL reference (`Verbatim::verbatim` on the
reference, as rendered into a requirement line). -/
def VersionOrUrlRef.verbatim : VersionOrUrlRef → String
  | VersionOrUrlRef.version text => text
  | VersionOrUrlRef.url text => text

/-- Modelled from the spec: the facets of `distribution_types::ResolvedDist`
(not included in the sources) that `to_requirements_txt` consults: the package
name, the locality flag (`is_local`), the version-or-source-URL reference, and
the distribution's own verbatim text (`Verbatim::verbatim`), preserved
unmodified for emission fallback paths. -/
structure ResolvedDist where
  name : String
  is_local : Bool
  version_or_url : VersionOrUrlRef
  verbatim : String
deriving DecidableEq, Repr

/-- Opaque handle for `pypi_types::Metadata23`. -/
structure Metadata23 where
  token : Nat
deriving DecidableEq, Repr

/-- `AnnotatedDist`: a pinned package with its resolved distribution, requested
extras (normalized names as strings), content hashes and metadata. -/
structure AnnotatedDist where
  dist : ResolvedDist
  extras : List String
  hashes : List String
  metadata : Metadata23
deriving DecidableEq, Repr

/-- `AnnotatedDist::name`, delegating to the underlying distribution. -/
def AnnotatedDist.name (self : AnnotatedDist) : String :=
  self.dist.name

/-- `AnnotatedDist::version_or_url`, delegating to the underlying
distribution. -/
def AnnotatedDist.version_or_url (self : AnnotatedDist) : VersionOrUrlRef :=
  self.dist.version_or_url

/-- Split a character list at the first `:`, returning the part before and the
part after, when a `:` occurs at all. -/
def splitAtColon : List Char → Option (List Char × List Char)
  | [] => none
  | c :: cs =>
    if c = ':' then some ([], cs)
    else
      match splitAtColon cs with
      | some (before, after) => some (c :: before, after)
      | none => none

/-- Modelled from the spec: `pep508_rs::split_scheme` (not included in the
sources) splits the given text at the scheme delimiter `:` into the scheme
token and the remainder; `none` when no scheme delimiter exists at all. -/
def split_scheme (s : String) : Option (String × String) :=
  match splitAtColon s.data with
  | some (scheme, rest) => some (⟨scheme⟩, ⟨rest⟩)
  | none => none

/-- A parsed URL scheme: `file`, or some other known scheme. -/
inductive Scheme where
  | file
  | other (name : String)
deriving DecidableEq, Repr

/-- Modelled from the spec: the known non-`file` schemes recognized by
`pep508_rs::Scheme` (plain HTTP plus the VCS schemes). -/
def knownSchemes : List String :=
  ["http", "https",
   "git+http", "git+https", "git+ssh", "git+file", "git+git",
   "hg+http", "hg+https", "hg+ssh", "hg+file", "hg+static-http",
   "bzr+http", "bzr+https", "bzr+ssh", "bzr+sftp", "bzr+ftp", "bzr+lp", "bzr+file",
   "svn+http", "svn+https", "svn+ssh", "svn+file", "svn+svn"]

/-- Modelled from the spec: `pep508_rs::Scheme::parse` recognizes `file` and the
other known schemes, and returns `none` on an unrecognized scheme token. -/
def Scheme.parse (s : String) : Option Scheme :=
  if s = "file" then some Scheme.file
  else if knownSchemes.contains s then some (Scheme.other s)
  else none

/-- `std::path::Path::has_root` under Unix path semantics: the path begins with
a `/` separator. -/
def pathHasRoot (p : String) : Bool :=
  strStartsWith p "/"

/-- Lexicographic order on character lists, by the character code order. -/
def charListLe : List Char → List Char → Bool
  | [], _ => true
  | _ :: _, [] => false
  | a :: as, b :: bs =>
    if a < b then true
    else if b < a then false
    else charListLe as bs

/-- The `Ord`-derived order on normalized extra names, as `sort_unstable`
compares them: lexicographic on the characters. -/
def strLe (a b : String) : Bool :=
  charListLe a.data b.data

/-- Adjacent deduplication, as `Vec::dedup` performs after `sort_unstable` in
`to_requirements_txt`. -/
def dedupAdj : List String → List String
  | [] => []
  | [x] => [x]
  | x :: y :: ys => if x = y then dedupAdj (y :: ys) else x :: dedupAdj (y :: ys)

/-- The extras list as rendered: sorted ascending (`sort_unstable`) then
adjacent-deduplicated (`dedup`). -/
def sortedDedupedExtras (extras : List String) : List String :=
  dedupAdj (List.insertionSort (fun a b => strLe a b = true) extras)

/-- The generic rendering tail of `to_requirements_txt` (resolution/mod.rs lines
83-95): the distribution's own verbatim text when the extras are empty or the
flag is off, otherwise `name[extras]version-or-url`. -/
def AnnotatedDist.genericLine (self : AnnotatedDist) (include_extras : Bool) : String :=
  if self.extras.isEmpty || !include_extras then
    self.dist.verbatim
  else
    self.name ++ "[" ++ String.intercalate ", " (sortedDedupedExtras self.extras) ++ "]"
      ++ self.version_or_url.verbatim

/-- `AnnotatedDist::to_requirements_txt` (resolution/mod.rs lines 36-96): the
local-URL special cases followed by the generic rendering. -/
def AnnotatedDist.to_requirements_txt (self : AnnotatedDist) (include_extras : Bool) : String :=
  if self.dist.is_local then
    match self.dist.version_or_url with
    | VersionOrUrlRef.url given =>
      match split_scheme given with
      | some (scheme, path) =>
        match Scheme.parse scheme with
        | some Scheme.file =>
          let localhostAbsolute :=
            match stripPrefixStr path "//localhost" with
            | some rest => strStartsWith rest "/"
            | none => false
          if localhostAbsolute then
            self.genericLine include_extras
          else
            match stripPrefixStr path "//" with
            | some bare =>
              if !strStartsWith bare "$\x7bPROJECT_ROOT\x7d" && !pathHasRoot bare then
                bare
              else
                self.genericLine include_extras
            | none => given
        | some (Scheme.other _) => self.genericLine include_extras
        | none => given
      | none => given
    | VersionOrUrlRef.version _ => self.genericLine include_extras
  else
    self.genericLine include_extras

/-- C3 spec side, per-value: a set value parses as a non-negative integer count
of seconds, or warns once and yields 30. -/
def specTimeoutOfValue (value : String) : Nat × List Warning :=
  match parseU64 value with
  | some n => (n, [])
  | none => (30, [Warning.invalidTimeoutValue value])

/-- C3 spec side: the first set variable in the strict priority order
`UV_HTTP_TIMEOUT`, `UV_REQUEST_TIMEOUT`, `HTTP_TIMEOUT` wins; when none is set
the resolved timeout is 30 with no warning. -/
def specResolveTimeout (var : String → Option String) : Nat × List Warning :=
  match var "UV_HTTP_TIMEOUT" with
  | some v => specTimeoutOfValue v
  | none =>
    match var "UV_REQUEST_TIMEOUT" with
    | some v => specTimeoutOfValue v
    | none =>
      match var "HTTP_TIMEOUT" with
      | some v => specTimeoutOfValue v
      | none => (30, [])

/-- C2 spec side: the decision procedure for a locally sourced distribution
whose reference is the URL `given`, stated branch by branch as the claim reads:
no scheme delimiter, unrecognized scheme and scheme-relative `file:` forms
return the verbatim text; `file` with a `localhost` authority and absolute path
falls through to generic rendering; `file` with an empty authority marker
returns the bare path when it neither carries the project-root placeholder nor
is OS-absolute; other known schemes fall through to generic rendering. -/
def specLocalUrlLine (self : AnnotatedDist) (include_extras : Bool) (given : String) : String :=
  match split_scheme given with
  | none => given
  | some (scheme, path) =>
    match Scheme.parse scheme with
    | none => given
    | some (Scheme.other _) => self.genericLine include_extras
    | some Scheme.file =>
      if (match stripPrefixStr path "//localhost" with
          | some rest => strStartsWith rest "/"
          | none => false) then
        self.genericLine include_extras
      else
        match stripPrefixStr path "//" with
        | some bare =>
          if !strStartsWith bare "$\x7bPROJECT_ROOT\x7d" && !pathHasRoot bare then bare
          else self.genericLine include_extras
        | none => given

/-- A locally sourced pin referenced by a rooted `file://` URL. -/
def exRooted : AnnotatedDist :=
  { dist := { name := "flask", is_local := true,
              version_or_url := VersionOrUrlRef.url "file:///home/user/flask-3.0.3-py3-none-any.whl",
              verbatim := "file:///home/user/flask-3.0.3-py3-none-any.whl" },
    extras := [], hashes := [], metadata := ⟨0⟩ }

/-- A locally sourced pin referenced by an authority-form `file://` URL with no
root. -/
def exAuthority : AnnotatedDist :=
  { dist := { name := "flask", is_local := true,
              version_or_url := VersionOrUrlRef.url "file://flask-3.0.3-py3-none-any.whl",
              verbatim := "file://flask-3.0.3-py3-none-any.whl" },
    extras := [], hashes := [], metadata := ⟨0⟩ }

/-- A locally sourced pin referenced by a scheme-relative `file:` URL. -/
def exRelative : AnnotatedDist :=
  { dist := { name := "flask", is_local := true,
              version_or_url := VersionOrUrlRef.url "file:./relative/flask.whl",
              verbatim := "file:./relative/flask.whl" },
    extras := [], hashes := [], metadata := ⟨0⟩ }

/-- The registry pin `flask==3.0.3` with extras stored unsorted and with a
duplicate. -/
def exFlask : AnnotatedDist :=
  { dist := { name := "flask", is_local := false,
              version_or_url := VersionOrUrlRef.version "==3.0.3",
              verbatim := "flask==3.0.3" },
    extras := ["dotenv", "async", "dotenv"], hashes := [], metadata := ⟨0⟩ }

/-- The same registry pin with the extras stored in another order and without
the duplicate. -/
def exFlaskReordered : AnnotatedDist :=
  { dist := exFlask.dist,
    extras := ["async", "dotenv"], hashes := [], metadata := ⟨0⟩ }

/-- An environment with nothing set, no files, and failing fingerprint
serialization. -/
def plainEnv : BuildEnv :=
  { var := fun _ => none
    fileExists := fun _ => false
    version := "0.1.45"
    linehaulJson := fun _ => none }

/-- An offline builder that (mistakenly) also carries retry and auth
middleware. -/
def offlineBuilder : BaseClientBuilder :=
  { BaseClientBuilder.default with
      connectivity := Connectivity.offline
      middleware_stack :=
        ((MiddlewareStack.mk []).with_retries 3).with_auth KeyringProviderType.disabled }

/-- A caller-supplied transport whose settings differ from everything `build()`
would configure. -/
def prebuiltClient : Client :=
  { user_agent := none
    pool_max_idle_per_host := none
    read_timeout := some 7
    tls_built_in_root_certs := true
    tls_built_in_native_certs := false
    tls_built_in_webpki_certs := false }

/-- A builder holding the pre-built transport. -/
def prebuiltBuilder : BaseClientBuilder :=
  { BaseClientBuilder.default with client := some prebuiltClient }

/-- An environment where `SSL_CERT_FILE` names a missing file. -/
def missingCertEnv : BuildEnv :=
  { var := fun s => if s = "SSL_CERT_FILE" then some "/missing/cert.pem" else none
    fileExists := fun _ => false
    version := "0.1.45"
    linehaulJson := fun _ => none }

/-- An environment where the primary timeout variable is malformed. -/
def badTimeoutEnv : BuildEnv :=
  { var := fun s => if s = "UV_HTTP_TIMEOUT" then some "abc" else none
    fileExists := fun _ => false
    version := "0.1.45"
    linehaulJson := fun _ => none }

/-- A builder with a configured marker-environment fingerprint. -/
def markerBuilder : BaseClientBuilder :=
  { BaseClientBuilder.default with markers := some ⟨7⟩ }

/-- An environment whose fingerprint serialization succeeds. -/
def okLinehaulEnv : BuildEnv :=
  { var := fun _ => none
    fileExists := fun _ => false
    version := "0.1.45"
    linehaulJson := fun _ => some "\x7b\x7d" }

/-- Claim C7: `with_retries(0)` returns the stack with the sequence of
transforms unchanged, and for every `n > 0`, `with_retries(n)` appends exactly
one exponential-backoff retry transform configured for up to `n` attempts at
the end, leaving all previously appended transforms in place and in order. -/
theorem with_retries_spec (s : MiddlewareStack) (n : Nat) :
    s.with_retries 0 = s ∧
    (0 < n → (s.with_retries n).transforms
      = s.transforms ++ [Middleware.retryExponentialBackoff n]) := by
  constructor
  · simp [MiddlewareStack.with_retries]
  · intro h
    simp [MiddlewareStack.with_retries, h]

/-- Witness for C7 at a one-element stack and `n = 2`. -/
theorem with_retries_spec_witness :
    (MiddlewareStack.mk [Middleware.arbitrary 0]).with_retries 0
      = MiddlewareStack.mk [Middleware.arbitrary 0] ∧
    (0 < 2 ∧ ((MiddlewareStack.mk [Middleware.arbitrary 0]).with_retries 2).transforms
      = [Middleware.arbitrary 0] ++ [Middleware.retryExponentialBackoff 2]) :=
  ⟨(with_retries_spec (MiddlewareStack.mk [Middleware.arbitrary 0]) 2).1,
   by decide,
   (with_retries_spec (MiddlewareStack.mk [Middleware.arbitrary 0]) 2).2 (by decide)⟩

/-- Claim C5: the composition step of `build()` depends only on connectivity:
Online wraps the transport with every middleware of the stack in insertion
order (first-appended outermost), Offline ignores the configured stack and
installs exactly the offline-enforcement layer and nothing else. -/
theorem build_composition_spec (self : BaseClientBuilder) (env : BuildEnv) :
    ((self.build env).1.client.middlewares
      = match self.connectivity with
        | Connectivity.online => self.middleware_stack.transforms
        | Connectivity.offline => [Middleware.offline]) ∧
    (self.build env).1.connectivity = self.connectivity := by
  cases h : self.connectivity <;> simp [BaseClientBuilder.build, h]

/-- Claim C1: with connectivity Offline, every request issued through the built
client fails with the distinct offline-rejection outcome before any network I/O
is attempted, regardless of the middleware configured on the builder. -/
theorem offline_build_rejects_requests (self : BaseClientBuilder) (env : BuildEnv)
    (h : self.connectivity = Connectivity.offline) :
    executeRequest (self.build env).1.client.middlewares
      = (RequestOutcome.offlineError, false) := by
  simp [BaseClientBuilder.build, h, executeRequest]

/-- Witness for C1: an offline builder that also carries retry and auth
middleware still rejects every request with no network I/O. -/
theorem offline_build_rejects_requests_witness :
    executeRequest (offlineBuilder.build plainEnv).1.client.middlewares
      = (RequestOutcome.offlineError, false) :=
  offline_build_rejects_requests offlineBuilder plainEnv rfl

/-- Claim C3: for every invocation of `build()`, the resolved timeout is taken
from the first set variable in the strict priority order `UV_HTTP_TIMEOUT`,
`UV_REQUEST_TIMEOUT`, `HTTP_TIMEOUT`; a set value that does not parse as a
non-negative integer count of seconds yields one warning and 30 seconds; when
none is set the resolved timeout is 30. Concretely: primary "15" with alias
"99" resolves to 15; primary "abc" resolves to 30 with one warning; nothing set
resolves to 30. -/
theorem build_timeout_resolution_spec (self : BaseClientBuilder) (env : BuildEnv) :
    resolveTimeout env.var = specResolveTimeout env.var ∧
    (self.build env).1.timeout = (resolveTimeout env.var).1 ∧
    resolveTimeout (fun s => if s = "UV_HTTP_TIMEOUT" then some "15"
      else if s = "UV_REQUEST_TIMEOUT" then some "99" else none) = (15, []) ∧
    resolveTimeout (fun s => if s = "UV_HTTP_TIMEOUT" then some "abc" else none)
      = (30, [Warning.invalidTimeoutValue "abc"]) ∧
    resolveTimeout (fun _ => none) = (30, []) := by
  refine ⟨?_, ?_, by decide, by decide, by decide⟩
  · unfold resolveTimeout specResolveTimeout
    cases env.var "UV_HTTP_TIMEOUT" <;> cases env.var "UV_REQUEST_TIMEOUT" <;>
      cases env.var "HTTP_TIMEOUT" <;>
        simp [Option.orElse, specTimeoutOfValue, default_timeout]
  · simp [BaseClientBuilder.build]

/-- Claim C9: a builder holding a pre-built transport reuses it verbatim: the
transport inside the returned client is exactly the supplied one (so no pool
cap or read timeout was applied to it), and the only warnings are the
timeout-resolution ones — no `SSL_CERT_FILE` probe or warning happens. -/
theorem build_prebuilt_transport_reused (self : BaseClientBuilder) (env : BuildEnv)
    (c : Client) (h : self.client = some c) :
    (self.build env).1.client.client = c ∧
    (self.build env).2 = (resolveTimeout env.var).2 := by
  cases hc : self.connectivity <;> simp [BaseClientBuilder.build, h, hc]

/-- Witness for C9: the pre-built transport survives `build()` unchanged, and
even with `SSL_CERT_FILE` set to a missing file no warning is emitted. -/
theorem build_prebuilt_transport_reused_witness :
    (prebuiltBuilder.build missingCertEnv).1.client.client = prebuiltClient ∧
    (prebuiltBuilder.build missingCertEnv).2 = (resolveTimeout missingCertEnv.var).2 :=
  build_prebuilt_transport_reused prebuiltBuilder missingCertEnv prebuiltClient rfl

/-- Claim C10: even with a pre-built transport, `build()` performs the full
timeout resolution — the environment variables are read and a malformed value
still warns — and the resolved value is stored on the returned `BaseClient`
(reported by the `timeout()` accessor), while the pre-built transport's own
read timeout stays whatever it was. -/
theorem build_prebuilt_timeout_still_resolved (self : BaseClientBuilder) (env : BuildEnv)
    (c : Client) (h : self.client = some c) :
    (self.build env).1.timeout = (resolveTimeout env.var).1 ∧
    (self.build env).2 = (resolveTimeout env.var).2 ∧
    (self.build env).1.client.client.read_timeout = c.read_timeout := by
  cases hc : self.connectivity <;> simp [BaseClientBuilder.build, h, hc]

/-- Witness for C10: with a malformed `UV_HTTP_TIMEOUT`, the builder holding a
pre-built transport still resolves timeout 30, emits the warning, and leaves
the transport's read timeout at its supplied value. -/
theorem build_prebuilt_timeout_still_resolved_witness :
    (prebuiltBuilder.build badTimeoutEnv).1.timeout = (resolveTimeout badTimeoutEnv.var).1 ∧
    (prebuiltBuilder.build badTimeoutEnv).2 = (resolveTimeout badTimeoutEnv.var).2 ∧
    (prebuiltBuilder.build badTimeoutEnv).1.client.client.read_timeout
      = prebuiltClient.read_timeout :=
  build_prebuilt_timeout_still_resolved prebuiltBuilder badTimeoutEnv prebuiltClient rfl

/-- Claim C6: when `build()` constructs its own transport, the built-in default
trust store is disabled, the idle pool is capped at 20 per host, the read
timeout equals the resolved timeout, the native store is trusted exactly when
native-TLS was requested or `SSL_CERT_FILE` points to an existing file (the
bundled webpki roots otherwise), and an `SSL_CERT_FILE` naming a missing file
produces one warning and is treated as unset. -/
theorem build_internal_transport_spec (self : BaseClientBuilder) (env : BuildEnv)
    (h : self.client = none) :
    (self.build env).1.client.client.tls_built_in_root_certs = false ∧
    (self.build env).1.client.client.pool_max_idle_per_host = some 20 ∧
    (self.build env).1.client.client.read_timeout = some (resolveTimeout env.var).1 ∧
    (self.build env).1.client.client.tls_built_in_native_certs
      = (self.native_tls || (sslCertFileCheck env).1) ∧
    (self.build env).1.client.client.tls_built_in_webpki_certs
      = !(self.native_tls || (sslCertFileCheck env).1) ∧
    (self.build env).2 = (resolveTimeout env.var).2 ++ (sslCertFileCheck env).2 ∧
    (∀ p, env.var "SSL_CERT_FILE" = some p → env.fileExists p = false →
      sslCertFileCheck env = (false, [Warning.invalidSSLCertFile p])) ∧
    (∀ p, env.var "SSL_CERT_FILE" = some p → env.fileExists p = true →
      sslCertFileCheck env = (true, [])) ∧
    (env.var "SSL_CERT_FILE" = none → sslCertFileCheck env = (false, [])) := by
  refine ⟨?_, ?_, ?_, ?_, ?_, ?_, ?_, ?_, ?_⟩
  · cases hc : self.connectivity <;>
      cases ht : (self.native_tls || (sslCertFileCheck env).1) <;>
        simp [BaseClientBuilder.build, buildClient, ClientBuilder.new, h, hc, ht]
  · cases hc : self.connectivity <;>
      cases ht : (self.native_tls || (sslCertFileCheck env).1) <;>
        simp [BaseClientBuilder.build, buildClient, ClientBuilder.new, h, hc, ht]
  · cases hc : self.connectivity <;>
      cases ht : (self.native_tls || (sslCertFileCheck env).1) <;>
        simp [BaseClientBuilder.build, buildClient, ClientBuilder.new, h, hc, ht]
  · cases hc : self.connectivity <;>
      cases ht : (self.native_tls || (sslCertFileCheck env).1) <;>
        simp [BaseClientBuilder.build, buildClient, ClientBuilder.new, h, hc, ht]
  · cases hc : self.connectivity <;>
      cases ht : (self.native_tls || (sslCertFileCheck env).1) <;>
        simp [BaseClientBuilder.build, buildClient, ClientBuilder.new, h, hc, ht]
  · cases hc : self.connectivity <;>
      simp [BaseClientBuilder.build, buildClient, h, hc]
  · intro p hp hf
    simp [sslCertFileCheck, hp, hf]
  · intro p hp hf
    simp [sslCertFileCheck, hp, hf]
  · intro hn
    simp [sslCertFileCheck, hn]

/-- Witness for C6 at a concrete builder and an environment whose
`SSL_CERT_FILE` names a missing file: the warning fires, the webpki roots are
trusted, the pool cap and resolved read timeout are set. -/
theorem build_internal_transport_spec_witness :
    ((BaseClientBuilder.default.build missingCertEnv).1.client.client.tls_built_in_root_certs = false ∧
     (BaseClientBuilder.default.build missingCertEnv).1.client.client.pool_max_idle_per_host = some 20 ∧
     (BaseClientBuilder.default.build missingCertEnv).1.client.client.read_timeout
       = some (resolveTimeout missingCertEnv.var).1 ∧
     (BaseClientBuilder.default.build missingCertEnv).1.client.client.tls_built_in_native_certs
       = (BaseClientBuilder.default.native_tls || (sslCertFileCheck missingCertEnv).1) ∧
     (BaseClientBuilder.default.build missingCertEnv).1.client.client.tls_built_in_webpki_certs
       = !(BaseClientBuilder.default.native_tls || (sslCertFileCheck missingCertEnv).1) ∧
     (BaseClientBuilder.default.build missingCertEnv).2
       = (resolveTimeout missingCertEnv.var).2 ++ (sslCertFileCheck missingCertEnv).2 ∧
     (∀ p, missingCertEnv.var "SSL_CERT_FILE" = some p → missingCertEnv.fileExists p = false →
       sslCertFileCheck missingCertEnv = (false, [Warning.invalidSSLCertFile p])) ∧
     (∀ p, missingCertEnv.var "SSL_CERT_FILE" = some p → missingCertEnv.fileExists p = true →
       sslCertFileCheck missingCertEnv = (true, [])) ∧
     (missingCertEnv.var "SSL_CERT_FILE" = none → sslCertFileCheck missingCertEnv = (false, []))) :=
  build_internal_transport_spec BaseClientBuilder.default missingCertEnv rfl

/-- The transport inside the built client: the supplied one when present, the
internally constructed one otherwise. -/
theorem build_transport_eq (self : BaseClientBuilder) (env : BuildEnv) :
    (self.build env).1.client.client
      = match self.client with
        | some c => c
        | none => (buildClient self env (userAgentString self env) (resolveTimeout env.var).1).1 := by
  cases hc : self.client <;> cases hcon : self.connectivity <;>
    simp [BaseClientBuilder.build, hc, hcon]

/-- The internally constructed transport, written out field by field. -/
theorem buildClient_fst (self : BaseClientBuilder) (env : BuildEnv) (ua : String) (t : Nat) :
    (buildClient self env ua t).1
      = { user_agent := some ua
          pool_max_idle_per_host := some 20
          read_timeout := some t
          tls_built_in_root_certs := false
          tls_built_in_native_certs := self.native_tls || (sslCertFileCheck env).1
          tls_built_in_webpki_certs := !(self.native_tls || (sslCertFileCheck env).1) } := by
  unfold buildClient
  cases h : self.native_tls || (sslCertFileCheck env).1 <;> simp [ClientBuilder.new, h]

/-- The warnings of `build()`: the timeout-resolution warnings, followed by the
`SSL_CERT_FILE`-probe warnings when the transport is constructed internally. -/
theorem build_warnings_eq (self : BaseClientBuilder) (env : BuildEnv) :
    (self.build env).2
      = (resolveTimeout env.var).2 ++
        (match self.client with
         | some _ => []
         | none => (sslCertFileCheck env).2) := by
  cases hc : self.client <;> cases hcon : self.connectivity <;>
    simp [BaseClientBuilder.build, buildClient, hc, hcon]

/-- Claim C8: the user-agent string always begins with `"uv/<version>"`; a
configured fingerprint that serializes successfully is appended as a JSON
fragment after a space; a serialization failure simply omits the fragment; and
the fingerprint inputs never change the build's resolved timeout, warnings, or
TLS outcome (two environments agreeing on variables and files yield the same
timeout, warnings and TLS toggles). -/
theorem build_user_agent_spec (self : BaseClientBuilder) (env env' : BuildEnv)
    (hv : env'.var = env.var) (hf : env'.fileExists = env.fileExists) :
    (∃ rest, userAgentString self env = "uv/" ++ env.version ++ rest) ∧
    (∀ m out, self.markers = some m → env.linehaulJson ⟨m, self.platform⟩ = some out →
      userAgentString self env = "uv/" ++ env.version ++ " " ++ out) ∧
    (∀ m, self.markers = some m → env.linehaulJson ⟨m, self.platform⟩ = none →
      userAgentString self env = "uv/" ++ env.version) ∧
    (self.build env).1.timeout = (self.build env').1.timeout ∧
    (self.build env).2 = (self.build env').2 ∧
    (self.build env).1.client.client.tls_built_in_root_certs
      = (self.build env').1.client.client.tls_built_in_root_certs ∧
    (self.build env).1.client.client.tls_built_in_native_certs
      = (self.build env').1.client.client.tls_built_in_native_certs ∧
    (self.build env).1.client.client.tls_built_in_webpki_certs
      = (self.build env').1.client.client.tls_built_in_webpki_certs := by
  have hssl : sslCertFileCheck env' = sslCertFileCheck env := by
    unfold sslCertFileCheck
    rw [hv, hf]
  have htls : ∀ field : Client → Bool,
      (∀ ua ua' : String, ∀ t : Nat, field (buildClient self env ua t).1
        = field (buildClient self env' ua' t).1) →
      field (self.build env).1.client.client = field (self.build env').1.client.client := by
    intro field hfield
    rw [build_transport_eq, build_transport_eq, hv]
    cases hc : self.client
    · exact hfield _ _ _
    · rfl
  refine ⟨?_, ?_, ?_, ?_, ?_, ?_, ?_, ?_⟩
  · exact ⟨_, rfl⟩
  · intro m out hm hj
    simp [userAgentString, hm, hj, String.append_assoc]
  · intro m hm hj
    simp [userAgentString, hm, hj]
  · simp [BaseClientBuilder.build, hv]
  · rw [build_warnings_eq, build_warnings_eq, hv, hssl]
  · exact htls (fun c => c.tls_built_in_root_certs)
      (fun ua ua' t => by rw [buildClient_fst, buildClient_fst, hssl])
  · exact htls (fun c => c.tls_built_in_native_certs)
      (fun ua ua' t => by rw [buildClient_fst, buildClient_fst, hssl])
  · exact htls (fun c => c.tls_built_in_webpki_certs)
      (fun ua ua' t => by rw [buildClient_fst, buildClient_fst, hssl])

/-- Witness for C8: the marker-configured builder under an environment whose
fingerprint serialization fails versus one where it succeeds: same timeout,
warnings and TLS toggles; and the user agent still starts with
`"uv/<version>"`. -/
theorem build_user_agent_spec_witness :
    (∃ rest, userAgentString markerBuilder plainEnv = "uv/" ++ plainEnv.version ++ rest) ∧
    (∀ m out, markerBuilder.markers = some m →
      plainEnv.linehaulJson ⟨m, markerBuilder.platform⟩ = some out →
      userAgentString markerBuilder plainEnv = "uv/" ++ plainEnv.version ++ " " ++ out) ∧
    (∀ m, markerBuilder.markers = some m →
      plainEnv.linehaulJson ⟨m, markerBuilder.platform⟩ = none →
      userAgentString markerBuilder plainEnv = "uv/" ++ plainEnv.version) ∧
    (markerBuilder.build plainEnv).1.timeout = (markerBuilder.build okLinehaulEnv).1.timeout ∧
    (markerBuilder.build plainEnv).2 = (markerBuilder.build okLinehaulEnv).2 ∧
    (markerBuilder.build plainEnv).1.client.client.tls_built_in_root_certs
      = (markerBuilder.build okLinehaulEnv).1.client.client.tls_built_in_root_certs ∧
    (markerBuilder.build plainEnv).1.client.client.tls_built_in_native_certs
      = (markerBuilder.build okLinehaulEnv).1.client.client.tls_built_in_native_certs ∧
    (markerBuilder.build plainEnv).1.client.client.tls_built_in_webpki_certs
      = (markerBuilder.build okLinehaulEnv).1.client.client.tls_built_in_webpki_certs :=
  build_user_agent_spec markerBuilder plainEnv okLinehaulEnv rfl rfl

/-- Claim C2: for a locally sourced distribution referenced by a URL,
`to_requirements_txt` follows the stated decision procedure (no scheme
delimiter → verbatim; `file` with `//localhost` and an absolute path → generic
rendering; `file` with the `//` marker stripped → the bare path unless it
carries the project-root placeholder or is OS-absolute; other `file:` forms →
verbatim; unrecognized scheme → verbatim; other known scheme → generic
rendering). Concretely: the rooted `file:///...` wheel renders as the original
verbatim URL, the authority-form `file://...` wheel as the bare filename, and
the scheme-relative `file:./...` wheel as the original verbatim text. -/
theorem to_requirements_txt_local_url_spec (self : AnnotatedDist) (flag : Bool) (given : String)
    (hl : self.dist.is_local = true) (hu : self.dist.version_or_url = VersionOrUrlRef.url given) :
    self.to_requirements_txt flag = specLocalUrlLine self flag given ∧
    exRooted.to_requirements_txt false = "file:///home/user/flask-3.0.3-py3-none-any.whl" ∧
    exAuthority.to_requirements_txt false = "flask-3.0.3-py3-none-any.whl" ∧
    exRelative.to_requirements_txt false = "file:./relative/flask.whl" := by
  refine ⟨?_, by decide, by decide, by decide⟩
  unfold AnnotatedDist.to_requirements_txt specLocalUrlLine
  rw [hl, hu]
  simp only [if_true]
  cases hs : split_scheme given with
  | none => simp
  | some p =>
    obtain ⟨scheme, path⟩ := p
    cases hp : Scheme.parse scheme with
    | none => simp [hp]
    | some sch =>
      cases sch with
      | other name => simp [hp]
      | file => simp only [hp]

/-- Witness for C2 at the authority-form example. -/
theorem to_requirements_txt_local_url_spec_witness :
    exAuthority.to_requirements_txt false
      = specLocalUrlLine exAuthority false "file://flask-3.0.3-py3-none-any.whl" ∧
    exRooted.to_requirements_txt false = "file:///home/user/flask-3.0.3-py3-none-any.whl" ∧
    exAuthority.to_requirements_txt false = "flask-3.0.3-py3-none-any.whl" ∧
    exRelative.to_requirements_txt false = "file:./relative/flask.whl" :=
  to_requirements_txt_local_url_spec exAuthority false "file://flask-3.0.3-py3-none-any.whl" rfl rfl

/-- Totality of the lexicographic character-list order. -/
theorem charListLe_total : ∀ as bs : List Char, charListLe as bs = true ∨ charListLe bs as = true
  | [], _ => Or.inl rfl
  | _ :: _, [] => Or.inr rfl
  | a :: as, b :: bs => by
    rcases lt_trichotomy a b with h | h | h
    · left
      simp [charListLe, h]
    · subst h
      rcases charListLe_total as bs with ih | ih
      · left
        simp [charListLe, lt_irrefl, ih]
      · right
        simp [charListLe, lt_irrefl, ih]
    · right
      simp [charListLe, h]

/-- Transitivity of the lexicographic character-list order. -/
theorem charListLe_trans : ∀ as bs cs : List Char,
    charListLe as bs = true → charListLe bs cs = true → charListLe as cs = true
  | [], _, _ => fun _ _ => rfl
  | _ :: _, [], _ => fun h1 _ => by simp [charListLe] at h1
  | _ :: _, _ :: _, [] => fun _ h2 => by simp [charListLe] at h2
  | a :: as, b :: bs, c :: cs => fun h1 h2 => by
    rcases lt_trichotomy a b with hab | hab | hab
    · rcases lt_trichotomy b c with hbc | hbc | hbc
      · simp [charListLe, lt_trans hab hbc]
      · subst hbc
        simp [charListLe, hab]
      · simp [charListLe, lt_asymm hbc, hbc] at h2
    · subst hab
      rcases lt_trichotomy a c with hac | hac | hac
      · simp [charListLe, hac]
      · subst hac
        simp [charListLe, lt_irrefl] at h1 h2 ⊢
        exact charListLe_trans as bs cs h1 h2
      · simp [charListLe, lt_asymm hac, hac] at h2
    · simp [charListLe, lt_asymm hab, hab] at h1

/-- Antisymmetry of the lexicographic character-list order. -/
theorem charListLe_antisymm : ∀ as bs : List Char,
    charListLe as bs = true → charListLe bs as = true → as = bs
  | [], [] => fun _ _ => rfl
  | [], _ :: _ => fun _ h2 => by simp [charListLe] at h2
  | _ :: _, [] => fun h1 _ => by simp [charListLe] at h1
  | a :: as, b :: bs => fun h1 h2 => by
    rcases lt_trichotomy a b with hab | hab | hab
    · simp [charListLe, lt_asymm hab, hab] at h2
    · subst hab
      simp [charListLe, lt_irrefl] at h1 h2
      rw [charListLe_antisymm as bs h1 h2]
    · simp [charListLe, lt_asymm hab, hab] at h1

/-- Antisymmetry of the extras order on strings. -/
theorem strLe_antisymm {a b : String} (h1 : strLe a b = true) (h2 : strLe b a = true) : a = b := by
  cases a with
  | mk da =>
    cases b with
    | mk db =>
      rw [charListLe_antisymm da db h1 h2]

/-- `dedupAdj` preserves membership. -/
theorem mem_dedupAdj : ∀ (l : List String) (x : String), x ∈ dedupAdj l ↔ x ∈ l
  | [], _ => Iff.rfl
  | [_], _ => Iff.rfl
  | y :: z :: zs, x => by
    by_cases h : y = z
    · subst h
      have hrw : dedupAdj (y :: y :: zs) = dedupAdj (y :: zs) := by
        simp [dedupAdj]
      rw [hrw, mem_dedupAdj (y :: zs) x]
      simp only [List.mem_cons]
      tauto
    · simp only [dedupAdj, if_neg h, List.mem_cons, mem_dedupAdj (z :: zs) x]

/-- `dedupAdj` of a `strLe`-pairwise list is strictly pairwise: ascending with
no duplicates anywhere. -/
theorem pairwise_dedupAdj : ∀ l : List String,
    l.Pairwise (fun a b => strLe a b = true) →
    (dedupAdj l).Pairwise (fun a b => strLe a b = true ∧ a ≠ b)
  | [], _ => List.Pairwise.nil
  | [x], _ => by simp [dedupAdj]
  | y :: z :: zs, h => by
    rcases List.pairwise_cons.mp h with ⟨hy, htail⟩
    by_cases hyz : y = z
    · subst hyz
      simp only [dedupAdj, if_pos rfl]
      exact pairwise_dedupAdj (y :: zs) htail
    · simp only [dedupAdj, if_neg hyz]
      refine List.pairwise_cons.mpr ⟨?_, pairwise_dedupAdj (z :: zs) htail⟩
      intro w hw
      have hwmem : w ∈ z :: zs := (mem_dedupAdj (z :: zs) w).mp hw
      refine ⟨hy w hwmem, ?_⟩
      intro hyw
      rcases List.mem_cons.mp hwmem with hz | hzs
      · exact hyz (hyw.trans hz)
      · have h1 : strLe y z = true := hy z (List.mem_cons_self z zs)
        have h2 : strLe z w = true := (List.pairwise_cons.mp htail).1 w hzs
        rw [← hyw] at h2
        exact hyz (strLe_antisymm h1 h2)

/-- Two strictly pairwise-ascending lists with the same members are equal. -/
theorem eq_of_pairwise_strict : ∀ (l1 l2 : List String),
    l1.Pairwise (fun a b => strLe a b = true ∧ a ≠ b) →
    l2.Pairwise (fun a b => strLe a b = true ∧ a ≠ b) →
    (∀ x, x ∈ l1 ↔ x ∈ l2) → l1 = l2
  | [], [], _, _, _ => rfl
  | [], b :: bs, _, _, hm => by
    have := (hm b).mpr (List.mem_cons_self b bs)
    simp at this
  | a :: as, [], _, _, hm => by
    have := (hm a).mp (List.mem_cons_self a as)
    simp at this
  | a :: as, b :: bs, h1, h2, hm => by
    rcases List.pairwise_cons.mp h1 with ⟨ha, h1t⟩
    rcases List.pairwise_cons.mp h2 with ⟨hb, h2t⟩
    have hab : a = b := by
      have haIn : a ∈ b :: bs := (hm a).mp (List.mem_cons_self a as)
      have hbIn : b ∈ a :: as := (hm b).mpr (List.mem_cons_self b bs)
      rcases List.mem_cons.mp haIn with h | h
      · exact h
      · rcases List.mem_cons.mp hbIn with h' | h'
        · exact h'.symm
        · have hba := hb a h
          have hab' := ha b h'
          exact absurd (strLe_antisymm hab'.1 hba.1) hab'.2
    subst hab
    have hnotas : a ∉ as := fun hmem => (ha a hmem).2 rfl
    have hnotbs : a ∉ bs := fun hmem => (hb a hmem).2 rfl
    have hm' : ∀ x, x ∈ as ↔ x ∈ bs := by
      intro x
      constructor
      · intro hx
        rcases List.mem_cons.mp ((hm x).mp (List.mem_cons_of_mem a hx)) with h | h
        · subst h
          exact absurd hx hnotas
        · exact h
      · intro hx
        rcases List.mem_cons.mp ((hm x).mpr (List.mem_cons_of_mem a hx)) with h | h
        · subst h
          exact absurd hx hnotbs
        · exact h
    rw [eq_of_pairwise_strict as bs h1t h2t hm']

/-- The rendered extras list is strictly ascending with no duplicates. -/
theorem pairwise_sortedDedupedExtras (l : List String) :
    (sortedDedupedExtras l).Pairwise (fun a b => strLe a b = true ∧ a ≠ b) := by
  apply pairwise_dedupAdj
  haveI : IsTotal String (fun a b => strLe a b = true) :=
    ⟨fun a b => charListLe_total a.data b.data⟩
  haveI : IsTrans String (fun a b => strLe a b = true) :=
    ⟨fun a b c h1 h2 => charListLe_trans a.data b.data c.data h1 h2⟩
  exact List.sorted_insertionSort _ l

/-- The rendered extras list has the same members as the stored extras. -/
theorem mem_sortedDedupedExtras (l : List String) (x : String) :
    x ∈ sortedDedupedExtras l ↔ x ∈ l :=
  (mem_dedupAdj _ x).trans (List.mem_insertionSort _)

/-- Rendering the extras is invariant under reordering and duplication. -/
theorem sortedDedupedExtras_ext (l1 l2 : List String) (hm : ∀ x, x ∈ l1 ↔ x ∈ l2) :
    sortedDedupedExtras l1 = sortedDedupedExtras l2 :=
  eq_of_pairwise_strict _ _ (pairwise_sortedDedupedExtras l1) (pairwise_sortedDedupedExtras l2)
    (fun x => (mem_sortedDedupedExtras l1 x).trans
      ((hm x).trans (mem_sortedDedupedExtras l2 x).symm))

/-- Lists with the same members are empty together. -/
theorem isEmpty_of_mem_iff {l1 l2 : List String} (hm : ∀ x, x ∈ l1 ↔ x ∈ l2) :
    l1.isEmpty = l2.isEmpty := by
  cases l1 with
  | nil =>
    cases l2 with
    | nil => rfl
    | cons b bs =>
      have := (hm b).mpr (List.mem_cons_self b bs)
      simp at this
  | cons a as =>
    cases l2 with
    | nil =>
      have := (hm a).mp (List.mem_cons_self a as)
      simp at this
    | cons b bs => rfl

/-- Claim C4: under generic rendering, an empty extras list or a false
include-extras flag yields the distribution's own verbatim text; otherwise the
output is `name[extras]version-or-url` with the extras sorted, deduplicated and
joined by comma-and-space — so the output is identical for any reordering or
duplication of the stored extras. Concretely, the registry pin `flask==3.0.3`
with stored extras dotenv, async, dotenv renders as
`flask[async, dotenv]==3.0.3` with the flag on and as `flask==3.0.3` with it
off. -/
theorem generic_rendering_spec (self other : AnnotatedDist) (flag : Bool)
    (hd : other.dist = self.dist) (hm : ∀ x, x ∈ other.extras ↔ x ∈ self.extras) :
    (self.dist.is_local = false → self.to_requirements_txt flag = self.genericLine flag) ∧
    ((self.extras.isEmpty || !flag) = true → self.genericLine flag = self.dist.verbatim) ∧
    ((self.extras.isEmpty || !flag) = false →
      self.genericLine flag
        = self.dist.name ++ "[" ++ String.intercalate ", " (sortedDedupedExtras self.extras)
          ++ "]" ++ self.dist.version_or_url.verbatim) ∧
    (sortedDedupedExtras self.extras).Pairwise (fun a b => strLe a b = true ∧ a ≠ b) ∧
    (∀ x, x ∈ sortedDedupedExtras self.extras ↔ x ∈ self.extras) ∧
    other.genericLine flag = self.genericLine flag ∧
    exFlask.to_requirements_txt true = "flask[async, dotenv]==3.0.3" ∧
    exFlask.to_requirements_txt false = "flask==3.0.3" := by
  refine ⟨?_, ?_, ?_, pairwise_sortedDedupedExtras _, mem_sortedDedupedExtras _, ?_,
    by decide, by decide⟩
  · intro hloc
    unfold AnnotatedDist.to_requirements_txt
    simp [hloc]
  · intro h
    simp [AnnotatedDist.genericLine, h]
  · intro h
    simp [AnnotatedDist.genericLine, AnnotatedDist.name, AnnotatedDist.version_or_url, h]
  · unfold AnnotatedDist.genericLine AnnotatedDist.name AnnotatedDist.version_or_url
    rw [hd, isEmpty_of_mem_iff hm, sortedDedupedExtras_ext other.extras self.extras hm]

/-- Witness for C4: the flask pin against the same pin with the extras
reordered and deduplicated in storage. -/
theorem generic_rendering_spec_witness :
    ((exFlask.dist.is_local = false →
        exFlask.to_requirements_txt true = exFlask.genericLine true) ∧
     ((exFlask.extras.isEmpty || !true) = true →
        exFlask.genericLine true = exFlask.dist.verbatim) ∧
     ((exFlask.extras.isEmpty || !true) = false →
        exFlask.genericLine true
          = exFlask.dist.name ++ "[" ++ String.intercalate ", " (sortedDedupedExtras exFlask.extras)
            ++ "]" ++ exFlask.dist.version_or_url.verbatim) ∧
     (sortedDedupedExtras exFlask.extras).Pairwise (fun a b => strLe a b = true ∧ a ≠ b) ∧
     (∀ x, x ∈ sortedDedupedExtras exFlask.extras ↔ x ∈ exFlask.extras) ∧
     exFlaskReordered.genericLine true = exFlask.genericLine true ∧
     exFlask.to_requirements_txt true = "flask[async, dotenv]==3.0.3" ∧
     exFlask.to_requirements_txt false = "flask==3.0.3") :=
  generic_rendering_spec exFlask exFlaskReordered true rfl
    (fun x => by
      simp only [exFlask, exFlaskReordered, List.mem_cons, List.not_mem_nil]
      tauto)
